import Mathlib

/-!
# Verification of the `chatgpt_rs` client library

A shallow embedding of the repository's two source files, `src/client.rs`
(the `ChatGPT` API client) and `src/converse.rs` (the `Conversation`
history holder), together with proofs of the specification's claims.

Modelling conventions:

* The wire data types (`Role`, `ChatMessage`, `CompletionRequest`,
  `CompletionResponse`) live in the repository's `types` module, which is
  not part of the provided sources; they are modelled from the spec's data
  model section (§3 and §6).
* The error enum lives in the repository's `err` module, also not
  provided; its four variants are modelled from the spec's error-handling
  section (§7).
* Network transport is an oracle `send : CompletionRequest → Except Error
  CompletionResponse` handed to each operation that performs a request;
  the code's fixed behaviour (building the request body, mutating the
  history) is embedded faithfully, while the remote service's reply is
  the oracle's choice.
* The filesystem is a map from paths to optional file contents; file
  contents are represented by their JSON document (`Json`), since
  `serde_json` serialization of a document to bytes is deterministic and
  injective, so document equality coincides with byte equality.  The
  rendering function `Json.render` makes the byte view explicit.
* Rust's panicking index `resp.message_choices[0]` is embedded with
  `List.getElem?`; the `none` outcome of `Conversation.send_message`
  marks the panic (index out of bounds) execution.
-/

namespace ChatGPTRs

/-- The role of a chat message.  Modelled from the spec: `types` module is
not among the provided sources; §3 gives `role: enum{System, User,
Assistant}`. -/
inductive Role where
  | System
  | User
  | Assistant
deriving DecidableEq

/-- A single chat message.  Modelled from the spec: §3 gives
`{role, content: string}`. -/
structure ChatMessage where
  role : Role
  content : String
deriving DecidableEq

/-- One choice of the completion response.  Modelled from the spec: §3
gives `{message: Message, ...}`; only the `message` field is consumed. -/
structure MessageChoice where
  message : ChatMessage
deriving DecidableEq

/-- The response wire shape.  Modelled from the spec: §3 gives
`{message_choices: ordered sequence of {message: Message, ...}}`. -/
structure CompletionResponse where
  message_choices : List MessageChoice
deriving DecidableEq

/-- The request wire shape, as built in `client.rs` (`CompletionRequest {
model, messages }`). -/
structure CompletionRequest where
  model : String
  messages : List ChatMessage
deriving DecidableEq

/-- The library error enum.  Modelled from the spec: the `err` module is
not among the provided sources; §7 names the kinds ConfigError,
TransportError, ParsingError, IOError, each carrying a description. -/
inductive Error where
  | ConfigError (msg : String)
  | TransportError (msg : String)
  | ParsingError (msg : String)
  | IOError (msg : String)
deriving DecidableEq

/-- The `ChatGPT` client of `client.rs`: a `reqwest::Client` whose only
configuration is the default `AUTHORIZATION` header, recorded here as its
byte sequence. -/
structure ChatGPT where
  default_auth : List Nat
deriving DecidableEq

/-- The `Conversation` of `converse.rs`: an owned client handle and the
message history. -/
structure Conversation where
  client : ChatGPT
  history : List ChatMessage
deriving DecidableEq

/-! ## Header-value validation (`ChatGPT::new`) -/

/-- Validity of a single byte inside an HTTP header value, as checked by
`http::HeaderValue::from_bytes` (any byte ≥ 32 except DEL, plus TAB). -/
def is_valid_header_byte (b : Nat) : Bool :=
  (32 ≤ b && b ≠ 127) || b == 9

/-- `HeaderValue::from_bytes`: accepts the byte sequence iff every byte is
valid in a header value.  Modelled from the spec: the `?` conversion of
the header error in `ChatGPT::new` lands in the spec's ConfigError kind
(§7 "bad credential encoding"). -/
def header_value_from_bytes (bytes : List Nat) : Except Error (List Nat) :=
  if bytes.all is_valid_header_byte then Except.ok bytes
  else Except.error (Error.ConfigError "failed to parse header value")

/-- UTF-8 encoding of a single unicode scalar value, byte by byte. -/
def utf8_encode_char (c : Char) : List Nat :=
  let n := c.toNat
  if n < 128 then [n]
  else if n < 2048 then [192 + n / 64, 128 + n % 64]
  else if n < 65536 then [224 + n / 4096, 128 + (n / 64) % 64, 128 + n % 64]
  else [240 + n / 262144, 128 + (n / 4096) % 64, 128 + (n / 64) % 64, 128 + n % 64]

/-- UTF-8 encoding of a string (Rust strings are UTF-8; `as_bytes` yields
exactly this sequence). -/
def utf8_encode (s : String) : List Nat :=
  s.data.flatMap utf8_encode_char

/-- `ChatGPT::new`: formats `"Bearer {api_key}"`, turns it into a header
value (which may fail), and stores it as the client's default
authorization header. -/
def ChatGPT.new (api_key : String) : Except Error ChatGPT :=
  (header_value_from_bytes (utf8_encode ("Bearer " ++ api_key))).map
    fun hv => { default_auth := hv }

/-! ## Requests (`ChatGPT::send_history`, `ChatGPT::send_simple_message`) -/

/-- `ChatGPT::send_history`: posts `CompletionRequest { model:
"gpt-3.5-turbo", messages: history }` to the completions endpoint; the
transport and response parsing are the oracle `send`. -/
def ChatGPT.send_history (send : CompletionRequest → Except Error CompletionResponse)
    (_g : ChatGPT) (history : List ChatMessage) : Except Error CompletionResponse :=
  send { model := "gpt-3.5-turbo", messages := history }

/-- `ChatGPT::send_simple_message`: posts a fresh single-element history
`[{role: User, content: message}]`; no stored state is read or written. -/
def ChatGPT.send_simple_message (send : CompletionRequest → Except Error CompletionResponse)
    (_g : ChatGPT) (message : String) : Except Error CompletionResponse :=
  send { model := "gpt-3.5-turbo",
         messages := [{ role := Role.User, content := message }] }

/-! ## Conversations (`converse.rs`) -/

/-- `Conversation::new`: history starts as the single system message. -/
def Conversation.new (client : ChatGPT) (first_message : String) : Conversation :=
  { client := client
    history := [{ role := Role.System, content := first_message }] }

/-- `Conversation::new_with_history`: adopts the given history verbatim. -/
def Conversation.new_with_history (client : ChatGPT) (history : List ChatMessage) :
    Conversation :=
  { client := client, history := history }

/-- `ChatGPT::new_conversation_directed`: a new conversation whose system
message is the caller-supplied direction. -/
def ChatGPT.new_conversation_directed (g : ChatGPT) (direction_message : String) :
    Conversation :=
  Conversation.new g direction_message

/-- `Conversation::send_message`: pushes the user message, sends the whole
history, then pushes `resp.message_choices[0].message`.  The result pairs
the conversation after the call (`&mut self`) with the returned value; the
outer `none` marks the panic of the unchecked index `[0]` on an empty
choice list. -/
def Conversation.send_message (send : CompletionRequest → Except Error CompletionResponse)
    (c : Conversation) (message : String) :
    Option (Conversation × Except Error CompletionResponse) :=
  let c1 : Conversation :=
    { c with history := c.history ++ [{ role := Role.User, content := message }] }
  match ChatGPT.send_history send c1.client c1.history with
  | Except.error e => some (c1, Except.error e)
  | Except.ok resp =>
      match resp.message_choices[0]? with
      | none => none
      | some choice =>
          some ({ c1 with history := c1.history ++ [choice.message] }, Except.ok resp)

/-! ## JSON documents

Modelled from the spec: the serde serialization derives live in the
`types` module, which is not among the provided sources; §6 fixes the
persisted layout as "a plain JSON array of `{role, content}` objects,
written/read verbatim". -/

/-- A JSON document. -/
inductive Json where
  | null
  | bool (b : Bool)
  | num (n : Int)
  | str (s : String)
  | arr (elems : List Json)
  | obj (fields : List (String × Json))

/-- One hexadecimal digit. -/
def hex_digit (n : Nat) : Char :=
  if n < 10 then Char.ofNat (48 + n) else Char.ofNat (87 + n)

/-- JSON escaping of one character of a string literal. -/
def escape_char (c : Char) : String :=
  if c = Char.ofNat 34 then "\\\""
  else if c = Char.ofNat 92 then "\\\\"
  else if c.toNat < 32 then
    "\\u00" ++ String.singleton (hex_digit (c.toNat / 16))
            ++ String.singleton (hex_digit (c.toNat % 16))
  else String.singleton c

/-- Rendering of a JSON string literal. -/
def render_string (s : String) : String :=
  "\"" ++ String.join (s.data.map escape_char) ++ "\""

mutual

/-- Deterministic compact rendering of a JSON document to its byte string,
as `serde_json::to_vec` produces it. -/
def Json.render : Json → String
  | Json.null => "null"
  | Json.bool true => "true"
  | Json.bool false => "false"
  | Json.num n => toString n
  | Json.str s => render_string s
  | Json.arr elems => "[" ++ Json.render_elems elems ++ "]"
  | Json.obj fields => "\x7b" ++ Json.render_fields fields ++ "\x7d"

/-- Rendering of array elements, comma separated. -/
def Json.render_elems : List Json → String
  | [] => ""
  | [x] => Json.render x
  | x :: y :: rest => Json.render x ++ "," ++ Json.render_elems (y :: rest)

/-- Rendering of object fields, comma separated. -/
def Json.render_fields : List (String × Json) → String
  | [] => ""
  | [(k, v)] => render_string k ++ ":" ++ Json.render v
  | (k, v) :: f :: rest =>
      render_string k ++ ":" ++ Json.render v ++ "," ++ Json.render_fields (f :: rest)

end

/-- Serde serialization of a `Role` (lowercase string tags, per the wire
protocol of §6). -/
def Role.toJson : Role → Json
  | Role.System => Json.str "system"
  | Role.User => Json.str "user"
  | Role.Assistant => Json.str "assistant"

/-- Serde serialization of a `ChatMessage` as a `{role, content}` object. -/
def ChatMessage.toJson (m : ChatMessage) : Json :=
  Json.obj [("role", m.role.toJson), ("content", Json.str m.content)]

/-- Serde serialization of a history as a plain JSON array. -/
def history_to_json (h : List ChatMessage) : Json :=
  Json.arr (h.map ChatMessage.toJson)

/-- Serde deserialization of a `Role`. -/
def Role.fromJson : Json → Except Error Role
  | Json.str "system" => Except.ok Role.System
  | Json.str "user" => Except.ok Role.User
  | Json.str "assistant" => Except.ok Role.Assistant
  | _ => Except.error (Error.ParsingError "unknown variant for Role")

/-- Field lookup during object deserialization. -/
def json_field (fields : List (String × Json)) (k : String) : Except Error Json :=
  match fields.lookup k with
  | some v => Except.ok v
  | none => Except.error (Error.ParsingError ("missing field " ++ k))

/-- Serde deserialization of a JSON string. -/
def json_as_string : Json → Except Error String
  | Json.str s => Except.ok s
  | _ => Except.error (Error.ParsingError "invalid type: expected a string")

/-- Serde deserialization of a `ChatMessage`. -/
def ChatMessage.fromJson (j : Json) : Except Error ChatMessage :=
  match j with
  | Json.obj fields => do
      let r ← Role.fromJson (← json_field fields "role")
      let c ← json_as_string (← json_field fields "content")
      Except.ok { role := r, content := c }
  | _ => Except.error (Error.ParsingError "invalid type: expected an object")

/-- Serde deserialization of a history from a JSON array of messages
(`serde_json::from_str` in `ChatGPT::restore_conversation`). -/
def history_from_json : Json → Except Error (List ChatMessage)
  | Json.arr elems => elems.mapM ChatMessage.fromJson
  | _ => Except.error (Error.ParsingError "invalid type: expected a sequence")

/-! ## Filesystem (`save_history_json`, `restore_conversation`) -/

/-- The filesystem: a map from paths to the JSON document stored in the
file, `none` when no file exists at the path. -/
def FileSystem := String → Option Json

/-- `Path::exists`. -/
def path_exists (fs : FileSystem) (p : String) : Bool :=
  (fs p).isSome

/-- `tokio::fs::remove_file`. -/
def remove_file (fs : FileSystem) (p : String) : FileSystem :=
  fun q => if q = p then none else fs q

/-- `File::create` followed by `write_all`: (re)creates the file at the
path holding exactly the given document. -/
def create_write (fs : FileSystem) (p : String) (doc : Json) : FileSystem :=
  fun q => if q = p then some doc else fs q

/-- `File::open` + `read_to_string`: reads the whole stored document, an
IO error when the file does not exist. -/
def open_read (fs : FileSystem) (p : String) : Except Error Json :=
  match fs p with
  | some doc => Except.ok doc
  | none => Except.error (Error.IOError "No such file or directory")

/-- `Conversation::save_history_json`: if the path exists, remove the
file, then create it and write the serialized history. -/
def Conversation.save_history_json (c : Conversation) (p : String) (fs : FileSystem) :
    FileSystem :=
  let fs1 := if path_exists fs p then remove_file fs p else fs
  create_write fs1 p (history_to_json c.history)

/-- `ChatGPT::restore_conversation`: explicit existence check first
(yielding a ParsingError), then open and read the file, parse the
history, and build the conversation with `new_with_history`. -/
def ChatGPT.restore_conversation (g : ChatGPT) (fs : FileSystem) (p : String) :
    Except Error Conversation :=
  if path_exists fs p = false then
    Except.error (Error.ParsingError "Conversation history JSON file does not exist")
  else
    match open_read fs p with
    | Except.error e => Except.error e
    | Except.ok buf =>
        match history_from_json buf with
        | Except.error e => Except.error e
        | Except.ok history => Except.ok (Conversation.new_with_history g history)

/-! ## Helper lemmas -/

/-- Deserializing a serialized message gives the message back. -/
theorem ChatMessage.fromJson_toJson (m : ChatMessage) :
    ChatMessage.fromJson m.toJson = Except.ok m := by
  cases m with
  | mk r c => cases r <;> rfl

/-- Deserializing a serialized message list gives the list back. -/
theorem mapM_fromJson_toJson (h : List ChatMessage) :
    (h.map ChatMessage.toJson).mapM ChatMessage.fromJson = Except.ok h := by
  induction h with
  | nil => rfl
  | cons m t ih => rw [List.map_cons, List.mapM_cons, ChatMessage.fromJson_toJson, ih]; rfl

/-- Round trip of a history through its JSON document. -/
theorem history_from_json_to_json (h : List ChatMessage) :
    history_from_json (history_to_json h) = Except.ok h :=
  mapM_fromJson_toJson h

/-- After a save, the path holds exactly the serialized history. -/
theorem save_history_json_apply (c : Conversation) (p : String) (fs : FileSystem) :
    Conversation.save_history_json c p fs p = some (history_to_json c.history) := by
  simp [Conversation.save_history_json, create_write]

/-- A printable-ASCII character is one UTF-8 byte, valid in a header. -/
theorem printable_char_utf8 (c : Char) (h32 : 32 ≤ c.toNat) (h126 : c.toNat ≤ 126) :
    utf8_encode_char c = [c.toNat] ∧ is_valid_header_byte c.toNat = true := by
  constructor
  · simp [utf8_encode_char]
    omega
  · simp [is_valid_header_byte]
    omega

/-- The UTF-8 bytes of a printable-ASCII string are all header valid. -/
theorem utf8_all_valid_of_printable (s : String)
    (hprint : ∀ c ∈ s.data, 32 ≤ c.toNat ∧ c.toNat ≤ 126) :
    (utf8_encode s).all is_valid_header_byte = true := by
  rw [List.all_eq_true]
  intro b hb
  rw [utf8_encode, List.mem_flatMap] at hb
  obtain ⟨c, hc, hbc⟩ := hb
  obtain ⟨h32, h126⟩ := hprint c hc
  obtain ⟨henc, hval⟩ := printable_char_utf8 c h32 h126
  rw [henc] at hbc
  simp at hbc
  subst hbc
  exact hval

/-! ## The claims -/

/-- C1: for every `Conversation` and input text, a successful
`send_message` appends the user message, sends the entire accumulated
history (including the new user message), then appends the first choice's
message of the response; in particular from a fresh directed conversation
one successful send yields a history of length 3 in the order System,
User, Assistant-reply. -/
theorem send_message_success_spec
    (send : CompletionRequest → Except Error CompletionResponse)
    (c : Conversation) (text : String)
    (resp : CompletionResponse) (choice : MessageChoice) (rest : List MessageChoice)
    (hsend : send { model := "gpt-3.5-turbo",
                    messages := c.history ++ [{ role := Role.User, content := text }] }
              = Except.ok resp)
    (hchoices : resp.message_choices = choice :: rest) :
    Conversation.send_message send c text =
      some ({ client := c.client,
              history := c.history ++ [{ role := Role.User, content := text },
                                       choice.message] },
            Except.ok resp)
    ∧ (∀ g sys, c = ChatGPT.new_conversation_directed g sys →
        ∃ conv, Conversation.send_message send c text = some (conv, Except.ok resp)
          ∧ conv.history = [{ role := Role.System, content := sys },
                            { role := Role.User, content := text },
                            choice.message]
          ∧ conv.history.length = 3) := by
  have hmain : Conversation.send_message send c text =
      some ({ client := c.client,
              history := c.history ++ [{ role := Role.User, content := text },
                                       choice.message] },
            Except.ok resp) := by
    simp [Conversation.send_message, ChatGPT.send_history, hsend, hchoices]
  refine ⟨hmain, ?_⟩
  intro g sys hc
  subst hc
  exact ⟨_, hmain, rfl, rfl⟩

/-- C1 witness: one successful send on a fresh directed conversation. -/
theorem send_message_success_spec_witness :
    Conversation.send_message
        (fun _ => Except.ok { message_choices := [⟨⟨Role.Assistant, "Hi"⟩⟩] })
        (ChatGPT.new_conversation_directed ⟨[]⟩ "sys") "Hello" =
      some ({ client := ⟨[]⟩,
              history := [⟨Role.System, "sys"⟩, ⟨Role.User, "Hello"⟩,
                          ⟨Role.Assistant, "Hi"⟩] },
            Except.ok { message_choices := [⟨⟨Role.Assistant, "Hi"⟩⟩] }) := by
  have h := (send_message_success_spec
      (fun _ => Except.ok { message_choices := [⟨⟨Role.Assistant, "Hi"⟩⟩] })
      (ChatGPT.new_conversation_directed ⟨[]⟩ "sys") "Hello"
      { message_choices := [⟨⟨Role.Assistant, "Hi"⟩⟩] }
      ⟨⟨Role.Assistant, "Hi"⟩⟩ [] rfl rfl).1
  simpa using h

/-- C2: saving a conversation's history and then restoring from the same
path yields a conversation whose history is the identical ordered message
sequence. -/
theorem save_then_restore_roundtrip (g : ChatGPT) (c : Conversation) (p : String)
    (fs : FileSystem) :
    ChatGPT.restore_conversation g (Conversation.save_history_json c p fs) p =
      Except.ok (Conversation.new_with_history g c.history)
    ∧ ∃ conv, ChatGPT.restore_conversation g (Conversation.save_history_json c p fs) p
          = Except.ok conv
        ∧ conv.history = c.history := by
  have hmain : ChatGPT.restore_conversation g (Conversation.save_history_json c p fs) p =
      Except.ok (Conversation.new_with_history g c.history) := by
    simp [ChatGPT.restore_conversation, path_exists, open_read,
      save_history_json_apply, history_from_json_to_json]
  exact ⟨hmain, _, hmain, rfl⟩

/-- C3: a failed send leaves the just-appended user message as the last
element of the history and appends no assistant message; on a fresh
directed conversation the history ends at length 2, System then User. -/
theorem send_message_failure_keeps_user
    (send : CompletionRequest → Except Error CompletionResponse)
    (c : Conversation) (text : String) (e : Error)
    (hsend : send { model := "gpt-3.5-turbo",
                    messages := c.history ++ [{ role := Role.User, content := text }] }
              = Except.error e) :
    Conversation.send_message send c text =
      some ({ client := c.client,
              history := c.history ++ [{ role := Role.User, content := text }] },
            Except.error e)
    ∧ (∀ g sys, c = ChatGPT.new_conversation_directed g sys →
        ∃ conv, Conversation.send_message send c text = some (conv, Except.error e)
          ∧ conv.history = [{ role := Role.System, content := sys },
                            { role := Role.User, content := text }]
          ∧ conv.history.length = 2) := by
  have hmain : Conversation.send_message send c text =
      some ({ client := c.client,
              history := c.history ++ [{ role := Role.User, content := text }] },
            Except.error e) := by
    simp [Conversation.send_message, ChatGPT.send_history, hsend]
  refine ⟨hmain, ?_⟩
  intro g sys hc
  subst hc
  exact ⟨_, hmain, rfl, rfl⟩

/-- C3 witness: a transport failure on the first send of a fresh
conversation leaves the history at System, User. -/
theorem send_message_failure_keeps_user_witness :
    Conversation.send_message
        (fun _ => Except.error (Error.TransportError "connection failed"))
        (ChatGPT.new_conversation_directed ⟨[]⟩ "sys") "Hello" =
      some ({ client := ⟨[]⟩,
              history := [⟨Role.System, "sys"⟩, ⟨Role.User, "Hello"⟩] },
            Except.error (Error.TransportError "connection failed")) := by
  have h := (send_message_failure_keeps_user
      (fun _ => Except.error (Error.TransportError "connection failed"))
      (ChatGPT.new_conversation_directed ⟨[]⟩ "sys") "Hello"
      (Error.TransportError "connection failed") rfl).1
  simpa using h

/-- C4: restoring from a path that does not exist fails with the
ParsingError of the explicit existence check, before any file open. -/
theorem restore_missing_path_parsing_error (g : ChatGPT) (fs : FileSystem) (p : String)
    (h : fs p = none) :
    ChatGPT.restore_conversation g fs p =
      Except.error (Error.ParsingError "Conversation history JSON file does not exist") := by
  simp [ChatGPT.restore_conversation, path_exists, h]

/-- C4 witness: restoring from the empty filesystem. -/
theorem restore_missing_path_parsing_error_witness :
    ChatGPT.restore_conversation ⟨[]⟩ (fun _ => none) "conversation.json" =
      Except.error (Error.ParsingError "Conversation history JSON file does not exist") :=
  restore_missing_path_parsing_error ⟨[]⟩ (fun _ => none) "conversation.json" rfl

/-- C5: construction succeeds for every printable-ASCII API key, and fails
with ConfigError for every key whose encoded header value contains an
invalid byte. -/
theorem chatgpt_new_key_validity :
    (∀ api_key : String,
        (∀ c ∈ api_key.data, 32 ≤ c.toNat ∧ c.toNat ≤ 126) →
        ChatGPT.new api_key =
          Except.ok { default_auth := utf8_encode ("Bearer " ++ api_key) })
    ∧ (∀ api_key : String,
        (∃ b ∈ utf8_encode ("Bearer " ++ api_key), is_valid_header_byte b = false) →
        ChatGPT.new api_key =
          Except.error (Error.ConfigError "failed to parse header value")) := by
  constructor
  · intro api_key hprint
    have hall : (utf8_encode ("Bearer " ++ api_key)).all is_valid_header_byte = true := by
      apply utf8_all_valid_of_printable
      intro c hc
      rw [String.data_append] at hc
      rcases List.mem_append.mp hc with h | h
      · fin_cases h <;> simp
      · exact hprint c h
    simp [ChatGPT.new, header_value_from_bytes, hall, Except.map]
  · intro api_key hbad
    have hall : (utf8_encode ("Bearer " ++ api_key)).all is_valid_header_byte = false := by
      obtain ⟨b, hb, hv⟩ := hbad
      rw [List.all_eq_false]
      exact ⟨b, hb, by simp [hv]⟩
    simp [ChatGPT.new, header_value_from_bytes, hall, Except.map]

/-- C5 witness: a plain key is accepted; a key with a newline is
rejected with ConfigError. -/
theorem chatgpt_new_key_validity_witness :
    ChatGPT.new "sk-test" =
      Except.ok { default_auth := utf8_encode ("Bearer " ++ "sk-test") }
    ∧ ChatGPT.new "bad\nkey" =
      Except.error (Error.ConfigError "failed to parse header value") :=
  ⟨chatgpt_new_key_validity.1 "sk-test" (by decide),
   chatgpt_new_key_validity.2 "bad\nkey" (by decide)⟩

/-- C6: saving twice to the same path with an unchanged history stores the
same document (hence byte-identical rendered content) after each call, and
the second save goes through the explicit delete-then-create. -/
theorem save_twice_byte_identical (c : Conversation) (p : String) (fs : FileSystem) :
    Conversation.save_history_json c p (Conversation.save_history_json c p fs) =
      create_write (remove_file (Conversation.save_history_json c p fs) p) p
        (history_to_json c.history)
    ∧ Conversation.save_history_json c p fs p = some (history_to_json c.history)
    ∧ Conversation.save_history_json c p (Conversation.save_history_json c p fs) p
        = Conversation.save_history_json c p fs p
    ∧ Option.map Json.render
        (Conversation.save_history_json c p (Conversation.save_history_json c p fs) p)
        = Option.map Json.render (Conversation.save_history_json c p fs p) := by
  have hex : path_exists (Conversation.save_history_json c p fs) p = true := by
    rw [path_exists, save_history_json_apply]
    rfl
  have hsecond : Conversation.save_history_json c p (Conversation.save_history_json c p fs) =
      create_write (remove_file (Conversation.save_history_json c p fs) p) p
        (history_to_json c.history) := by
    rw [Conversation.save_history_json, hex]
    simp
  refine ⟨hsecond, save_history_json_apply c p fs, ?_, ?_⟩
  · rw [save_history_json_apply, save_history_json_apply]
  · rw [save_history_json_apply, save_history_json_apply]

/-- C7: a new conversation's history is exactly the single system message
with the given content; `new_conversation_directed` produces exactly
`Conversation.new` on the caller-supplied text. -/
theorem new_conversation_directed_single_system (g : ChatGPT) (s : String) :
    (ChatGPT.new_conversation_directed g s).history
        = [{ role := Role.System, content := s }]
    ∧ Conversation.new g s
        = { client := g, history := [{ role := Role.System, content := s }] }
    ∧ ChatGPT.new_conversation_directed g s = Conversation.new g s :=
  ⟨rfl, rfl, rfl⟩

/-- C8: `new_with_history` adopts any history verbatim, with no validation
of non-emptiness or of the first role, and it cannot fail (it returns a
`Conversation`, not a fallible result). -/
theorem new_with_history_verbatim (g : ChatGPT) (h : List ChatMessage) :
    Conversation.new_with_history g h = { client := g, history := h }
    ∧ (Conversation.new_with_history g h).history = h
    ∧ (Conversation.new_with_history g []).history = [] :=
  ⟨rfl, rfl, rfl⟩

/-- C9: `send_simple_message` posts exactly the single-element history
`[{role: User, content: text}]` under model "gpt-3.5-turbo", and reads no
client-stored conversation state: its behaviour is the same for every
client value. -/
theorem send_simple_message_stateless
    (send : CompletionRequest → Except Error CompletionResponse)
    (g : ChatGPT) (text : String) :
    ChatGPT.send_simple_message send g text =
      send { model := "gpt-3.5-turbo",
             messages := [{ role := Role.User, content := text }] }
    ∧ ∀ g' : ChatGPT, ChatGPT.send_simple_message send g text =
        ChatGPT.send_simple_message send g' text :=
  ⟨rfl, fun _ => rfl⟩

/-- C10: `send_message` reads the first message choice without a
non-emptiness check: on a successfully parsed response with an empty
`message_choices` the call panics (the `none` outcome), and with at least
one choice the panic branch is unreachable. -/
theorem send_message_unchecked_first_choice
    (send : CompletionRequest → Except Error CompletionResponse)
    (c : Conversation) (text : String) (resp : CompletionResponse)
    (hsend : send { model := "gpt-3.5-turbo",
                    messages := c.history ++ [{ role := Role.User, content := text }] }
              = Except.ok resp) :
    (resp.message_choices = [] → Conversation.send_message send c text = none)
    ∧ (∀ choice rest, resp.message_choices = choice :: rest →
        Conversation.send_message send c text ≠ none) := by
  constructor
  · intro hempty
    simp [Conversation.send_message, ChatGPT.send_history, hsend, hempty]
  · intro choice rest hch
    simp [Conversation.send_message, ChatGPT.send_history, hsend, hch]

/-- C10 witness: a successful response with zero choices makes the send
panic on a fresh conversation. -/
theorem send_message_unchecked_first_choice_witness :
    Conversation.send_message (fun _ => Except.ok { message_choices := [] })
        (ChatGPT.new_conversation_directed ⟨[]⟩ "sys") "Hello" = none :=
  (send_message_unchecked_first_choice (fun _ => Except.ok { message_choices := [] })
      (ChatGPT.new_conversation_directed ⟨[]⟩ "sys") "Hello"
      { message_choices := [] } rfl).1 rfl

end ChatGPTRs
